import Mathlib

set_option autoImplicit false

/- Shallow embedding of the phpipam-sdk-go controllers (sections, addresses,
subnets, vlans, l2domains).  Go structs become Lean structures, the scalar
wrapper types of the phpipam package become one-field structures over Int and
Bool, Go slices become Option (List _) with none standing for the nil slice,
Go maps become association lists, and each controller method becomes a pure
function of the dispatcher outcome for the request it issues. -/

namespace PhpipamSdk

/-- Go type phpipam.JSONIntString: an int-backed wrapper used on wire records
for fields the remote API may encode as a JSON number or as a quoted numeric
string. -/
structure JSONIntString where
  val : Int
deriving DecidableEq, Repr

/-- Go type phpipam.BoolIntString: a bool-backed wrapper for flags the remote
API encodes as 0/1, possibly quoted. -/
structure BoolIntString where
  val : Bool
deriving DecidableEq, Repr

/-- Modelled from the spec: the descriptor attached to each custom-field name
in a custom-field schema (the phpipam package file declaring
phpipam.CustomField is not among the provided sources).  The operations
settled here only inspect schema keys, so the descriptor is carried opaquely
as one string. -/
structure CustomField where
  fieldType : String
deriving DecidableEq, Repr

/-- A JSON-typed value standing in for Go interface values held in
map[string]interface fields and request bodies. -/
inductive Value where
  | vInt : Int → Value
  | vStr : String → Value
  | vBool : Bool → Value
deriving DecidableEq, Repr

/-- Go map[string]interface as an association list (a deterministic stand-in
for the unordered Go map); the nil map is none. -/
abbrev GoMap := Option (List (String × Value))

/-- Go slice: none is the nil slice, some is a non-nil slice. -/
abbrev GoSlice (α : Type) := Option (List α)

/-- Go append of one element: always yields a non-nil slice. -/
def goAppend {α : Type} (s : GoSlice α) (a : α) : GoSlice α :=
  some (s.getD [] ++ [a])

/-- Go len: the nil slice has length zero. -/
def goLen {α : Type} (s : GoSlice α) : Nat :=
  (s.getD []).length

/-- The Go nil slice (the zero value of a slice-typed variable). -/
def goNil {α : Type} : GoSlice α := none

/-- Wire record of the sections controller (Go struct SectionDTO). -/
structure SectionDTO where
  ID : JSONIntString
  Name : String
  Description : String
  MasterSection : JSONIntString
  Permissions : String
  StrictMode : BoolIntString
  SubnetOrdering : String
  Order : JSONIntString
  EditDate : String
  ShowVLAN : BoolIntString
  ShowVRF : BoolIntString
  ShowSupernetOnly : BoolIntString
  DNS : JSONIntString
deriving DecidableEq, Repr

/-- Domain record of the sections controller (Go struct Section). -/
structure Section where
  ID : Int
  Name : String
  Description : String
  MasterSection : Int
  Permissions : String
  StrictMode : BoolIntString
  SubnetOrdering : String
  Order : Int
  EditDate : String
  ShowVLAN : BoolIntString
  ShowVRF : BoolIntString
  ShowSupernetOnly : BoolIntString
  DNS : Int
deriving DecidableEq, Repr

/-- Go method (s *Section) FromDTO: the receiver is fully overwritten, so it
is embedded as a pure function of the DTO. -/
def Section.FromDTO (dto : SectionDTO) : Section where
  ID := dto.ID.val
  Name := dto.Name
  Description := dto.Description
  MasterSection := dto.MasterSection.val
  Permissions := dto.Permissions
  StrictMode := dto.StrictMode
  SubnetOrdering := dto.SubnetOrdering
  Order := dto.Order.val
  EditDate := dto.EditDate
  ShowVLAN := dto.ShowVLAN
  ShowVRF := dto.ShowVRF
  ShowSupernetOnly := dto.ShowSupernetOnly
  DNS := dto.DNS.val

/-- Go method (s *Section) ToDTO. -/
def Section.ToDTO (s : Section) : SectionDTO where
  ID := ⟨s.ID⟩
  Name := s.Name
  Description := s.Description
  MasterSection := ⟨s.MasterSection⟩
  Permissions := s.Permissions
  StrictMode := s.StrictMode
  SubnetOrdering := s.SubnetOrdering
  Order := ⟨s.Order⟩
  EditDate := s.EditDate
  ShowVLAN := s.ShowVLAN
  ShowVRF := s.ShowVRF
  ShowSupernetOnly := s.ShowSupernetOnly
  DNS := ⟨s.DNS⟩

/-- The Go zero value of SectionDTO: the state of the destination when the
dispatcher returned an error without populating it. -/
def SectionDTO.zero : SectionDTO where
  ID := ⟨0⟩
  Name := ""
  Description := ""
  MasterSection := ⟨0⟩
  Permissions := ""
  StrictMode := ⟨false⟩
  SubnetOrdering := ""
  Order := ⟨0⟩
  EditDate := ""
  ShowVLAN := ⟨false⟩
  ShowVRF := ⟨false⟩
  ShowSupernetOnly := ⟨false⟩
  DNS := ⟨0⟩

/-- Wire record of the addresses controller (Go struct AddressDTO). -/
structure AddressDTO where
  ID : JSONIntString
  SubnetID : JSONIntString
  IPAddress : String
  IsGateway : BoolIntString
  Description : String
  Hostname : String
  MACAddress : String
  Owner : String
  Tag : JSONIntString
  PTRIgnore : BoolIntString
  PTRRecordID : JSONIntString
  DeviceID : JSONIntString
  Port : String
  Note : String
  LastSeen : String
  ExcludePing : BoolIntString
  EditDate : String
  CustomFields : GoMap
deriving DecidableEq, Repr

/-- Domain record of the addresses controller (Go struct Address). -/
structure Address where
  ID : Int
  SubnetID : Int
  IPAddress : String
  IsGateway : BoolIntString
  Description : String
  Hostname : String
  MACAddress : String
  Owner : String
  Tag : Int
  PTRIgnore : BoolIntString
  PTRRecordID : Int
  DeviceID : Int
  Port : String
  Note : String
  LastSeen : String
  ExcludePing : BoolIntString
  EditDate : String
  CustomFields : GoMap
deriving DecidableEq, Repr

/-- Go method (a *Address) FromDTO. -/
def Address.FromDTO (dto : AddressDTO) : Address where
  ID := dto.ID.val
  SubnetID := dto.SubnetID.val
  IPAddress := dto.IPAddress
  IsGateway := dto.IsGateway
  Description := dto.Description
  Hostname := dto.Hostname
  MACAddress := dto.MACAddress
  Owner := dto.Owner
  Tag := dto.Tag.val
  PTRIgnore := dto.PTRIgnore
  PTRRecordID := dto.PTRRecordID.val
  DeviceID := dto.DeviceID.val
  Port := dto.Port
  Note := dto.Note
  LastSeen := dto.LastSeen
  ExcludePing := dto.ExcludePing
  EditDate := dto.EditDate
  CustomFields := dto.CustomFields

/-- Go method (a *Address) ToDTO. -/
def Address.ToDTO (a : Address) : AddressDTO where
  ID := ⟨a.ID⟩
  SubnetID := ⟨a.SubnetID⟩
  IPAddress := a.IPAddress
  IsGateway := a.IsGateway
  Description := a.Description
  Hostname := a.Hostname
  MACAddress := a.MACAddress
  Owner := a.Owner
  Tag := ⟨a.Tag⟩
  PTRIgnore := a.PTRIgnore
  PTRRecordID := ⟨a.PTRRecordID⟩
  DeviceID := ⟨a.DeviceID⟩
  Port := a.Port
  Note := a.Note
  LastSeen := a.LastSeen
  ExcludePing := a.ExcludePing
  EditDate := a.EditDate
  CustomFields := a.CustomFields

/-- Wire record of the subnets controller (Go struct SubnetDTO). -/
structure SubnetDTO where
  ID : JSONIntString
  SubnetAddress : String
  Mask : JSONIntString
  Description : String
  SectionID : JSONIntString
  LinkedSubnet : JSONIntString
  VLANID : JSONIntString
  VRFID : JSONIntString
  MasterSubnetID : JSONIntString
  NameserverID : JSONIntString
  Nameservers : GoMap
  ShowName : BoolIntString
  Permissions : String
  DNSRecursive : BoolIntString
  DNSRecords : BoolIntString
  AllowRequests : BoolIntString
  ScanAgent : JSONIntString
  PingSubnet : BoolIntString
  DiscoverSubnet : BoolIntString
  IsFolder : BoolIntString
  IsPool : BoolIntString
  IsFull : BoolIntString
  Threshold : JSONIntString
  Location : JSONIntString
  EditDate : String
  Gateway : GoMap
  GatewayID : String
  CustomFields : GoMap
  ResolveDNS : BoolIntString
deriving DecidableEq, Repr

/-- Domain record of the subnets controller (Go struct Subnet).  Note the Mask
field keeps the JSONIntString wrapper type in the Go source. -/
structure Subnet where
  ID : Int
  SubnetAddress : String
  Mask : JSONIntString
  Description : String
  SectionID : Int
  LinkedSubnet : Int
  VLANID : Int
  VRFID : Int
  MasterSubnetID : Int
  NameserverID : Int
  Nameservers : GoMap
  ShowName : BoolIntString
  Permissions : String
  DNSRecursive : BoolIntString
  DNSRecords : BoolIntString
  AllowRequests : BoolIntString
  ScanAgent : Int
  PingSubnet : BoolIntString
  DiscoverSubnet : BoolIntString
  IsFolder : BoolIntString
  IsPool : BoolIntString
  IsFull : BoolIntString
  Threshold : Int
  Location : Int
  EditDate : String
  Gateway : GoMap
  GatewayID : String
  CustomFields : GoMap
  ResolveDNS : BoolIntString
deriving DecidableEq, Repr

/-- Go method (s *Subnet) FromDTO. -/
def Subnet.FromDTO (dto : SubnetDTO) : Subnet where
  ID := dto.ID.val
  SubnetAddress := dto.SubnetAddress
  Mask := dto.Mask
  Description := dto.Description
  SectionID := dto.SectionID.val
  LinkedSubnet := dto.LinkedSubnet.val
  VLANID := dto.VLANID.val
  VRFID := dto.VRFID.val
  MasterSubnetID := dto.MasterSubnetID.val
  NameserverID := dto.NameserverID.val
  Nameservers := dto.Nameservers
  ShowName := dto.ShowName
  Permissions := dto.Permissions
  DNSRecursive := dto.DNSRecursive
  DNSRecords := dto.DNSRecords
  AllowRequests := dto.AllowRequests
  ScanAgent := dto.ScanAgent.val
  PingSubnet := dto.PingSubnet
  DiscoverSubnet := dto.DiscoverSubnet
  IsFolder := dto.IsFolder
  IsPool := dto.IsPool
  IsFull := dto.IsFull
  Threshold := dto.Threshold.val
  Location := dto.Location.val
  EditDate := dto.EditDate
  Gateway := dto.Gateway
  GatewayID := dto.GatewayID
  CustomFields := dto.CustomFields
  ResolveDNS := dto.ResolveDNS

/-- Go method (s *Subnet) ToDTO. -/
def Subnet.ToDTO (s : Subnet) : SubnetDTO where
  ID := ⟨s.ID⟩
  SubnetAddress := s.SubnetAddress
  Mask := s.Mask
  Description := s.Description
  SectionID := ⟨s.SectionID⟩
  LinkedSubnet := ⟨s.LinkedSubnet⟩
  VLANID := ⟨s.VLANID⟩
  VRFID := ⟨s.VRFID⟩
  MasterSubnetID := ⟨s.MasterSubnetID⟩
  NameserverID := ⟨s.NameserverID⟩
  Nameservers := s.Nameservers
  ShowName := s.ShowName
  Permissions := s.Permissions
  DNSRecursive := s.DNSRecursive
  DNSRecords := s.DNSRecords
  AllowRequests := s.AllowRequests
  ScanAgent := ⟨s.ScanAgent⟩
  PingSubnet := s.PingSubnet
  DiscoverSubnet := s.DiscoverSubnet
  IsFolder := s.IsFolder
  IsPool := s.IsPool
  IsFull := s.IsFull
  Threshold := ⟨s.Threshold⟩
  Location := ⟨s.Location⟩
  EditDate := s.EditDate
  Gateway := s.Gateway
  GatewayID := s.GatewayID
  CustomFields := s.CustomFields
  ResolveDNS := s.ResolveDNS

/-- The Go zero value of SubnetDTO. -/
def SubnetDTO.zero : SubnetDTO where
  ID := ⟨0⟩
  SubnetAddress := ""
  Mask := ⟨0⟩
  Description := ""
  SectionID := ⟨0⟩
  LinkedSubnet := ⟨0⟩
  VLANID := ⟨0⟩
  VRFID := ⟨0⟩
  MasterSubnetID := ⟨0⟩
  NameserverID := ⟨0⟩
  Nameservers := none
  ShowName := ⟨false⟩
  Permissions := ""
  DNSRecursive := ⟨false⟩
  DNSRecords := ⟨false⟩
  AllowRequests := ⟨false⟩
  ScanAgent := ⟨0⟩
  PingSubnet := ⟨false⟩
  DiscoverSubnet := ⟨false⟩
  IsFolder := ⟨false⟩
  IsPool := ⟨false⟩
  IsFull := ⟨false⟩
  Threshold := ⟨0⟩
  Location := ⟨0⟩
  EditDate := ""
  Gateway := none
  GatewayID := ""
  CustomFields := none
  ResolveDNS := ⟨false⟩

/-- Wire record of the vlans controller (Go struct VLANDTO). -/
structure VLANDTO where
  ID : JSONIntString
  DomainID : JSONIntString
  Name : String
  Number : JSONIntString
  Description : String
  EditDate : String
  CustomFields : GoMap
deriving DecidableEq, Repr

/-- Domain record of the vlans controller (Go struct VLAN). -/
structure VLAN where
  ID : Int
  DomainID : Int
  Name : String
  Number : Int
  Description : String
  EditDate : String
  CustomFields : GoMap
deriving DecidableEq, Repr

/-- Go method (v *VLAN) FromDTO. -/
def VLAN.FromDTO (dto : VLANDTO) : VLAN where
  ID := dto.ID.val
  DomainID := dto.DomainID.val
  Name := dto.Name
  Number := dto.Number.val
  Description := dto.Description
  EditDate := dto.EditDate
  CustomFields := dto.CustomFields

/-- Go method (v *VLAN) ToDTO. -/
def VLAN.ToDTO (v : VLAN) : VLANDTO where
  ID := ⟨v.ID⟩
  DomainID := ⟨v.DomainID⟩
  Name := v.Name
  Number := ⟨v.Number⟩
  Description := v.Description
  EditDate := v.EditDate
  CustomFields := v.CustomFields

/-- The Go zero value of VLANDTO. -/
def VLANDTO.zero : VLANDTO where
  ID := ⟨0⟩
  DomainID := ⟨0⟩
  Name := ""
  Number := ⟨0⟩
  Description := ""
  EditDate := ""
  CustomFields := none

/-- Wire record of the l2domains controller (Go struct L2DomainDTO). -/
structure L2DomainDTO where
  ID : JSONIntString
  Name : String
  Description : String
  Sections : String
deriving DecidableEq, Repr

/-- Domain record of the l2domains controller (Go struct L2Domain). -/
structure L2Domain where
  ID : Int
  Name : String
  Description : String
  Sections : String
deriving DecidableEq, Repr

/-- Go method (ld *L2Domain) FromDTO. -/
def L2Domain.FromDTO (dto : L2DomainDTO) : L2Domain where
  ID := dto.ID.val
  Name := dto.Name
  Description := dto.Description
  Sections := dto.Sections

/-- Go method (ld *L2Domain) ToDTO. -/
def L2Domain.ToDTO (ld : L2Domain) : L2DomainDTO where
  ID := ⟨ld.ID⟩
  Name := ld.Name
  Description := ld.Description
  Sections := ld.Sections

/-- One HTTP request issued through the dispatcher: method, path, and the JSON
object sent as body (the empty Go struct marshals to the empty object). -/
structure Request where
  method : String
  path : String
  body : List (String × Value)
deriving DecidableEq, Repr

/-- Go controller method ListSections, as a function of the dispatcher outcome
for its single GET (the decoded destination slice on success).  The Go code
starts from a nil output slice and appends one converted record per decoded
DTO, so an empty decode leaves the output as the nil slice. -/
def ListSections (resp : Except String (GoSlice SectionDTO)) :
    GoSlice Section × Option String :=
  match resp with
  | .error e => (goNil, some e)
  | .ok dto =>
      ((dto.getD []).foldl (fun out d => goAppend out (Section.FromDTO d)) goNil, none)

/-- Go controller method GetSectionByID: on dispatcher error the destination
DTO keeps its zero value and FromDTO is applied to it regardless. -/
def GetSectionByID (id : Int) (resp : Except String SectionDTO) :
    Section × Option String :=
  match id, resp with
  | _, .error e => (Section.FromDTO SectionDTO.zero, some e)
  | _, .ok dto => (Section.FromDTO dto, none)

/-- Go controller method GetSectionByName: decodes one SectionDTO (not a
slice) from GET /sections/name/ and returns one Section. -/
def GetSectionByName (name : String) (resp : Except String SectionDTO) :
    Section × Option String :=
  match name, resp with
  | _, .error e => (Section.FromDTO SectionDTO.zero, some e)
  | _, .ok dto => (Section.FromDTO dto, none)

/-- Go controller method DeleteSection: the full list of requests it issues,
paired with the returned error.  It sends one DELETE to the section path and
nothing else. -/
def DeleteSection (id : Int) (resp : Except String Unit) :
    List Request × Option String :=
  ([⟨"DELETE", "/sections/" ++ toString id ++ "/", []⟩],
   match resp with
   | .ok _ => none
   | .error e => some e)

/-- Go controller method GetAddressesInSubnet (subnets controller): appends
one converted Address per decoded AddressDTO onto a nil output slice. -/
def GetAddressesInSubnet (id : Int) (resp : Except String (GoSlice AddressDTO)) :
    GoSlice Address × Option String :=
  match id, resp with
  | _, .error e => (goNil, some e)
  | _, .ok dtos =>
      ((dtos.getD []).foldl (fun out d => goAppend out (Address.FromDTO d)) goNil, none)

/-- Go controller method GetSubnetByID. -/
def GetSubnetByID (id : Int) (resp : Except String SubnetDTO) :
    Subnet × Option String :=
  match id, resp with
  | _, .error e => (Subnet.FromDTO SubnetDTO.zero, some e)
  | _, .ok dto => (Subnet.FromDTO dto, none)

/-- Go controller method GetVLANByID. -/
def GetVLANByID (id : Int) (resp : Except String VLANDTO) :
    VLAN × Option String :=
  match id, resp with
  | _, .error e => (VLAN.FromDTO VLANDTO.zero, some e)
  | _, .ok dto => (VLAN.FromDTO dto, none)

/-- Go controller method ListL2Domains: the one list operation that decodes
the response directly into the domain slice, with no DTO step.  Decoding an
empty JSON array into a slice yields an empty non-nil slice. -/
def ListL2Domains (resp : Except String (GoSlice L2Domain)) :
    GoSlice L2Domain × Option String :=
  match resp with
  | .error e => (goNil, some e)
  | .ok out => (out, none)

/-- Go controller method GetL2DomainByName: decodes a slice of L2DomainDTO
from the filter query and converts each entry. -/
def GetL2DomainByName (name : String) (resp : Except String (GoSlice L2DomainDTO)) :
    GoSlice L2Domain × Option String :=
  match name, resp with
  | _, .error e => (goNil, some e)
  | _, .ok dtos =>
      ((dtos.getD []).foldl (fun out d => goAppend out (L2Domain.FromDTO d)) goNil, none)

/-- Go map assignment m[k] = v on the association-list model: replaces the
value in place when the key is present, appends otherwise. -/
def mapSet (m : List (String × Value)) (k : String) (v : Value) :
    List (String × Value) :=
  if m.any (fun p => p.1 == k) then
    m.map (fun p => if p.1 == k then (k, v) else p)
  else
    m ++ [(k, v)]

/-- The copy loop of UpdateVLANCustomFields: params starts empty and receives
every entry of the input map by Go map assignment. -/
def copyMap (m : List (String × Value)) : List (String × Value) :=
  m.foldl (fun acc p => mapSet acc p.1 p.2) []

/-- The inner loop of UpdateVLANCustomFields: whether key k names some entry
of the custom-field schema. -/
def keyInSchema (schema : List (String × CustomField)) (k : String) : Bool :=
  schema.any (fun p => k == p.1)

/-- The outer validation loop of UpdateVLANCustomFields: the first input-map
entry (in iteration order) whose key is not in the schema, if any. -/
def firstUnknownKey (schema : List (String × CustomField))
    (inMap : List (String × Value)) : Option String :=
  (inMap.find? (fun p => !(keyInSchema schema p.1))).map (fun p => p.1)

/-- The error text produced by UpdateVLANCustomFields for an unknown key. -/
def unknownFieldMsg (k : String) : String :=
  "Custom field " ++ k ++ " not found in schema for controller vlans"

/-- Go controller method UpdateVLANCustomFields, as a function of the two
dispatcher outcomes it can consume: the schema fetch (a GET through the
external client, not a mutating call) and the PATCH.  The first component of
the result is the list of mutating requests actually issued; the remaining
components are the returned message and error.  Validation failure returns
before the PATCH request exists. -/
def UpdateVLANCustomFields
    (schemaResult : Except String (List (String × CustomField)))
    (patchResult : Except String String)
    (id : Int) (name : String) (inMap : List (String × Value)) :
    List Request × String × Option String :=
  match schemaResult with
  | .error e => ([], "", some e)
  | .ok schema =>
    match firstUnknownKey schema inMap with
    | some k => ([], "", some (unknownFieldMsg k))
    | none =>
      let params := mapSet (mapSet (copyMap inMap) "id" (.vInt id)) "name" (.vStr name)
      match patchResult with
      | .ok msg => ([⟨"PATCH", "/vlans/", params⟩], msg, none)
      | .error e => ([⟨"PATCH", "/vlans/", params⟩], "", some e)

/-- The Go type of one record field, for the field-by-field comparison of
each wire record with its domain record. -/
inductive FieldTy where
  | tInt
  | tStr
  | tJSONIntString
  | tBoolIntString
  | tMap
deriving DecidableEq, Repr

/-- Field names and Go types of struct SectionDTO, in declaration order. -/
def sectionWireFields : List (String × FieldTy) :=
  [("ID", .tJSONIntString), ("Name", .tStr), ("Description", .tStr),
   ("MasterSection", .tJSONIntString), ("Permissions", .tStr),
   ("StrictMode", .tBoolIntString), ("SubnetOrdering", .tStr),
   ("Order", .tJSONIntString), ("EditDate", .tStr),
   ("ShowVLAN", .tBoolIntString), ("ShowVRF", .tBoolIntString),
   ("ShowSupernetOnly", .tBoolIntString), ("DNS", .tJSONIntString)]

/-- Field names and Go types of struct Section. -/
def sectionDomainFields : List (String × FieldTy) :=
  [("ID", .tInt), ("Name", .tStr), ("Description", .tStr),
   ("MasterSection", .tInt), ("Permissions", .tStr),
   ("StrictMode", .tBoolIntString), ("SubnetOrdering", .tStr),
   ("Order", .tInt), ("EditDate", .tStr),
   ("ShowVLAN", .tBoolIntString), ("ShowVRF", .tBoolIntString),
   ("ShowSupernetOnly", .tBoolIntString), ("DNS", .tInt)]

/-- Field names and Go types of struct AddressDTO. -/
def addressWireFields : List (String × FieldTy) :=
  [("ID", .tJSONIntString), ("SubnetID", .tJSONIntString), ("IPAddress", .tStr),
   ("IsGateway", .tBoolIntString), ("Description", .tStr), ("Hostname", .tStr),
   ("MACAddress", .tStr), ("Owner", .tStr), ("Tag", .tJSONIntString),
   ("PTRIgnore", .tBoolIntString), ("PTRRecordID", .tJSONIntString),
   ("DeviceID", .tJSONIntString), ("Port", .tStr), ("Note", .tStr),
   ("LastSeen", .tStr), ("ExcludePing", .tBoolIntString), ("EditDate", .tStr),
   ("CustomFields", .tMap)]

/-- Field names and Go types of struct Address. -/
def addressDomainFields : List (String × FieldTy) :=
  [("ID", .tInt), ("SubnetID", .tInt), ("IPAddress", .tStr),
   ("IsGateway", .tBoolIntString), ("Description", .tStr), ("Hostname", .tStr),
   ("MACAddress", .tStr), ("Owner", .tStr), ("Tag", .tInt),
   ("PTRIgnore", .tBoolIntString), ("PTRRecordID", .tInt),
   ("DeviceID", .tInt), ("Port", .tStr), ("Note", .tStr),
   ("LastSeen", .tStr), ("ExcludePing", .tBoolIntString), ("EditDate", .tStr),
   ("CustomFields", .tMap)]

/-- Field names and Go types of struct SubnetDTO. -/
def subnetWireFields : List (String × FieldTy) :=
  [("ID", .tJSONIntString), ("SubnetAddress", .tStr), ("Mask", .tJSONIntString),
   ("Description", .tStr), ("SectionID", .tJSONIntString),
   ("LinkedSubnet", .tJSONIntString), ("VLANID", .tJSONIntString),
   ("VRFID", .tJSONIntString), ("MasterSubnetID", .tJSONIntString),
   ("NameserverID", .tJSONIntString), ("Nameservers", .tMap),
   ("ShowName", .tBoolIntString), ("Permissions", .tStr),
   ("DNSRecursive", .tBoolIntString), ("DNSRecords", .tBoolIntString),
   ("AllowRequests", .tBoolIntString), ("ScanAgent", .tJSONIntString),
   ("PingSubnet", .tBoolIntString), ("DiscoverSubnet", .tBoolIntString),
   ("IsFolder", .tBoolIntString), ("IsPool", .tBoolIntString),
   ("IsFull", .tBoolIntString), ("Threshold", .tJSONIntString),
   ("Location", .tJSONIntString), ("EditDate", .tStr), ("Gateway", .tMap),
   ("GatewayID", .tStr), ("CustomFields", .tMap),
   ("ResolveDNS", .tBoolIntString)]

/-- Field names and Go types of struct Subnet: every identifier field is a
plain int except Mask, which keeps the JSONIntString wrapper. -/
def subnetDomainFields : List (String × FieldTy) :=
  [("ID", .tInt), ("SubnetAddress", .tStr), ("Mask", .tJSONIntString),
   ("Description", .tStr), ("SectionID", .tInt),
   ("LinkedSubnet", .tInt), ("VLANID", .tInt),
   ("VRFID", .tInt), ("MasterSubnetID", .tInt),
   ("NameserverID", .tInt), ("Nameservers", .tMap),
   ("ShowName", .tBoolIntString), ("Permissions", .tStr),
   ("DNSRecursive", .tBoolIntString), ("DNSRecords", .tBoolIntString),
   ("AllowRequests", .tBoolIntString), ("ScanAgent", .tInt),
   ("PingSubnet", .tBoolIntString), ("DiscoverSubnet", .tBoolIntString),
   ("IsFolder", .tBoolIntString), ("IsPool", .tBoolIntString),
   ("IsFull", .tBoolIntString), ("Threshold", .tInt),
   ("Location", .tInt), ("EditDate", .tStr), ("Gateway", .tMap),
   ("GatewayID", .tStr), ("CustomFields", .tMap),
   ("ResolveDNS", .tBoolIntString)]

/-- Field names and Go types of struct VLANDTO. -/
def vlanWireFields : List (String × FieldTy) :=
  [("ID", .tJSONIntString), ("DomainID", .tJSONIntString), ("Name", .tStr),
   ("Number", .tJSONIntString), ("Description", .tStr), ("EditDate", .tStr),
   ("CustomFields", .tMap)]

/-- Field names and Go types of struct VLAN. -/
def vlanDomainFields : List (String × FieldTy) :=
  [("ID", .tInt), ("DomainID", .tInt), ("Name", .tStr),
   ("Number", .tInt), ("Description", .tStr), ("EditDate", .tStr),
   ("CustomFields", .tMap)]

/-- Field names and Go types of struct L2DomainDTO. -/
def l2domainWireFields : List (String × FieldTy) :=
  [("ID", .tJSONIntString), ("Name", .tStr), ("Description", .tStr),
   ("Sections", .tStr)]

/-- Field names and Go types of struct L2Domain. -/
def l2domainDomainFields : List (String × FieldTy) :=
  [("ID", .tInt), ("Name", .tStr), ("Description", .tStr),
   ("Sections", .tStr)]

/-- The five wire/domain field tables, one per resource kind. -/
def resourceFieldTables :
    List (String × List (String × FieldTy) × List (String × FieldTy)) :=
  [("sections", sectionWireFields, sectionDomainFields),
   ("addresses", addressWireFields, addressDomainFields),
   ("subnets", subnetWireFields, subnetDomainFields),
   ("vlans", vlanWireFields, vlanDomainFields),
   ("l2domains", l2domainWireFields, l2domainDomainFields)]

/-- Every JSONIntString field of the wire table reappears under the same name
with plain int type in the domain table, keys outside the exception list. -/
def unwrapsIntFieldsExcept (exceptions : List String)
    (wire domain : List (String × FieldTy)) : Bool :=
  wire.all (fun p =>
    p.2 != FieldTy.tJSONIntString || exceptions.contains p.1 ||
      domain.contains (p.1, FieldTy.tInt))

/-- No field of the domain table has the JSONIntString wrapper type, keys
outside the exception list. -/
def domainDropsWrapperExcept (exceptions : List String)
    (domain : List (String × FieldTy)) : Bool :=
  domain.all (fun p => p.2 != FieldTy.tJSONIntString || exceptions.contains p.1)

/-- A get-by-name or get-by-search-key controller method, with the shape of
its result: true when it returns a slice, false when it returns one record. -/
structure SearchOp where
  name : String
  returnsSeq : Bool
deriving DecidableEq, Repr

/-- The get-by-name / get-by-search-key methods of the five controllers and
their result shapes, read off the Go signatures. -/
def searchOps : List SearchOp :=
  [⟨"GetSectionByName", false⟩,
   ⟨"GetAddressesByIP", true⟩,
   ⟨"GetAddressesByIpInSubnet", false⟩,
   ⟨"GetVLANsByNumber", true⟩,
   ⟨"GetVLANsByNumberAndDomainID", true⟩,
   ⟨"GetSubnetsByCIDR", true⟩,
   ⟨"GetSubnetsByCIDRAndSection", true⟩,
   ⟨"GetL2DomainByName", true⟩]

/-- A controller method returning records, with whether it decodes the
response into DTO records and converts via FromDTO (true), or decodes the
response directly into the domain type (false). -/
structure RecordOp where
  name : String
  decodesViaDTO : Bool
deriving DecidableEq, Repr

/-- Every record-returning method of the five controllers and its decode
target, read off the Go bodies. -/
def recordReturningOps : List RecordOp :=
  [⟨"ListSections", true⟩,
   ⟨"GetSectionByID", true⟩,
   ⟨"GetSectionByName", true⟩,
   ⟨"GetSubnetsInSection", true⟩,
   ⟨"GetAddressByID", true⟩,
   ⟨"GetAddressesByIP", true⟩,
   ⟨"GetAddressesByIpInSubnet", true⟩,
   ⟨"GetSubnetByID", true⟩,
   ⟨"GetSubnetsByCIDR", true⟩,
   ⟨"GetSubnetsByCIDRAndSection", true⟩,
   ⟨"GetAddressesInSubnet", true⟩,
   ⟨"GetVLANByID", true⟩,
   ⟨"GetVLANsByNumber", true⟩,
   ⟨"GetVLANsByNumberAndDomainID", true⟩,
   ⟨"ListL2Domains", false⟩,
   ⟨"GetL2DomainByID", true⟩,
   ⟨"GetL2DomainByName", true⟩,
   ⟨"GetVlansInl2Domain", true⟩]

/-- The decimal digit characters, by digit value. -/
def digitToChar (d : Nat) : Char :=
  match d with
  | 0 => '0'
  | 1 => '1'
  | 2 => '2'
  | 3 => '3'
  | 4 => '4'
  | 5 => '5'
  | 6 => '6'
  | 7 => '7'
  | 8 => '8'
  | 9 => '9'
  | _ => '?'

/-- The digit value of a decimal digit character. -/
def charToDigit (c : Char) : Nat :=
  c.toNat - 48

/-- Little-endian base-10 digits of n, computed with explicit fuel so that the
definition is structurally recursive and kernel-evaluable. -/
def natDigitsAux : Nat → Nat → List Nat
  | 0, _ => []
  | _ + 1, 0 => []
  | fuel + 1, n + 1 => ((n + 1) % 10) :: natDigitsAux fuel ((n + 1) / 10)

/-- Little-endian base-10 digits of n (empty exactly for n = 0). -/
def natDigits (n : Nat) : List Nat :=
  natDigitsAux n n

/-- The value of a little-endian digit list. -/
def digitsVal : List Nat → Nat
  | [] => 0
  | d :: ds => d + 10 * digitsVal ds

/-- The decimal character rendering of a natural number, most significant
digit first. -/
def natToChars (n : Nat) : List Char :=
  if n = 0 then ['0'] else (natDigits n).reverse.map digitToChar

/-- Go-style decimal rendering of an integer. -/
def intToString (n : Int) : String :=
  if n < 0 then ⟨'-' :: natToChars n.natAbs⟩ else ⟨natToChars n.natAbs⟩

/-- Parse a nonempty all-digit character list as a natural number. -/
def parseNat (cs : List Char) : Option Nat :=
  if cs = [] then none
  else if cs.all Char.isDigit then
    some (digitsVal ((cs.map charToDigit).reverse))
  else none

/-- Parse a decimal integer literal with an optional leading minus sign. -/
def parseInt (s : String) : Option Int :=
  match s.data with
  | [] => none
  | c :: cs =>
      if c = '-' then (parseNat cs).map (fun (m : Nat) => -(m : Int))
      else (parseNat (c :: cs)).map (fun (m : Nat) => (m : Int))

/-- One JSON scalar token as supplied to a field decoder: a native number, a
string, a native boolean, an explicit null, or an absent field. -/
inductive JSONScalar where
  | num : Int → JSONScalar
  | str : String → JSONScalar
  | jbool : Bool → JSONScalar
  | jnull : JSONScalar
  | absent : JSONScalar
deriving DecidableEq, Repr

/-- Modelled from the spec: decode of the Normalized Integer (JSONIntString)
wrapper, whose implementation in the phpipam package is not among the
provided sources.  It accepts a bare JSON number, a JSON string containing an
integer literal, or an absent/null/empty token (giving zero), and fails with
MalformedScalar on anything else. -/
def decodeJSONIntString : JSONScalar → Except String JSONIntString
  | .num n => .ok ⟨n⟩
  | .str s =>
      if s = "" then .ok ⟨0⟩
      else
        match parseInt s with
        | some n => .ok ⟨n⟩
        | none => .error "MalformedScalar"
  | .jnull => .ok ⟨0⟩
  | .absent => .ok ⟨0⟩
  | .jbool _ => .error "MalformedScalar"

/-- Modelled from the spec: encode of the Normalized Integer (JSONIntString)
wrapper.  It always emits the value as a quoted numeric string, except that a
zero value on an optional field is omitted from the output entirely. -/
def encodeJSONIntString (v : JSONIntString) (optional : Bool) : JSONScalar :=
  if optional ∧ v.val = 0 then .absent else .str (intToString v.val)

theorem digitsVal_natDigitsAux :
    ∀ (fuel n : Nat), n ≤ fuel → digitsVal (natDigitsAux fuel n) = n := by
  intro fuel
  induction fuel with
  | zero =>
    intro n h
    have hz : n = 0 := Nat.le_zero.mp h
    subst hz
    rfl
  | succ f ih =>
    intro n h
    cases n with
    | zero => rfl
    | succ m =>
      have hdiv : (m + 1) / 10 ≤ f := by
        have : (m + 1) / 10 < m + 1 := Nat.div_lt_self (by omega) (by omega)
        omega
      show digitsVal (((m + 1) % 10) :: natDigitsAux f ((m + 1) / 10)) = m + 1
      simp only [digitsVal]
      rw [ih ((m + 1) / 10) hdiv]
      omega

theorem natDigitsAux_lt_ten :
    ∀ (fuel n d : Nat), d ∈ natDigitsAux fuel n → d < 10 := by
  intro fuel
  induction fuel with
  | zero =>
    intro n d h
    simp [natDigitsAux] at h
  | succ f ih =>
    intro n d h
    cases n with
    | zero => simp [natDigitsAux] at h
    | succ m =>
      simp only [natDigitsAux, List.mem_cons] at h
      rcases h with h | h
      · omega
      · exact ih _ _ h

theorem natDigits_ne_nil (n : Nat) (h : n ≠ 0) : natDigits n ≠ [] := by
  cases n with
  | zero => exact absurd rfl h
  | succ m => simp [natDigits, natDigitsAux]

theorem charToDigit_digitToChar (d : Nat) (h : d < 10) :
    charToDigit (digitToChar d) = d := by
  interval_cases d <;> decide

theorem isDigit_digitToChar (d : Nat) (h : d < 10) :
    (digitToChar d).isDigit = true := by
  interval_cases d <;> decide

theorem natToChars_ne_nil (n : Nat) : natToChars n ≠ [] := by
  unfold natToChars
  by_cases h0 : n = 0
  · simp [h0]
  · rw [if_neg h0]
    simp only [ne_eq, List.map_eq_nil_iff, List.reverse_eq_nil_iff]
    exact natDigits_ne_nil n h0

theorem natToChars_isDigit (n : Nat) (c : Char) (hc : c ∈ natToChars n) :
    c.isDigit = true := by
  unfold natToChars at hc
  by_cases h0 : n = 0
  · rw [if_pos h0] at hc
    simp only [List.mem_singleton] at hc
    subst hc
    decide
  · rw [if_neg h0] at hc
    obtain ⟨d, hd, rfl⟩ := List.mem_map.mp hc
    exact isDigit_digitToChar d (natDigitsAux_lt_ten n n d (List.mem_reverse.mp hd))

theorem parseNat_natToChars (n : Nat) : parseNat (natToChars n) = some n := by
  by_cases h0 : n = 0
  · subst h0
    decide
  · unfold parseNat natToChars
    rw [if_neg h0]
    have hLne : (natDigits n).reverse.map digitToChar ≠ [] := by
      simp only [ne_eq, List.map_eq_nil_iff, List.reverse_eq_nil_iff]
      exact natDigits_ne_nil n h0
    rw [if_neg hLne]
    have hall : ((natDigits n).reverse.map digitToChar).all Char.isDigit = true := by
      rw [List.all_eq_true]
      intro c hc
      obtain ⟨d, hd, rfl⟩ := List.mem_map.mp hc
      exact isDigit_digitToChar d (natDigitsAux_lt_ten n n d (List.mem_reverse.mp hd))
    simp only [hall, if_true]
    rw [List.map_map]
    have hmap : (natDigits n).reverse.map (charToDigit ∘ digitToChar)
        = (natDigits n).reverse.map id := by
      apply List.map_congr_left
      intro d hd
      exact charToDigit_digitToChar d (natDigitsAux_lt_ten n n d (List.mem_reverse.mp hd))
    rw [hmap, List.map_id, List.reverse_reverse]
    unfold natDigits
    rw [digitsVal_natDigitsAux n n (Nat.le_refl n)]

theorem parseInt_intToString (n : Int) : parseInt (intToString n) = some n := by
  unfold intToString
  by_cases hneg : n < 0
  · rw [if_pos hneg]
    show (if '-' = '-' then (parseNat (natToChars n.natAbs)).map (fun (m : Nat) => -(m : Int))
          else (parseNat ('-' :: natToChars n.natAbs)).map (fun (m : Nat) => (m : Int)))
        = some n
    rw [if_pos rfl, parseNat_natToChars]
    simp only [Option.map_some']
    congr 1
    omega
  · rw [if_neg hneg]
    obtain ⟨c, cs, hcons⟩ : ∃ c cs, natToChars n.natAbs = c :: cs := by
      cases hh : natToChars n.natAbs with
      | nil => exact absurd hh (natToChars_ne_nil _)
      | cons c cs => exact ⟨c, cs, rfl⟩
    have hcdigit : c.isDigit = true := by
      apply natToChars_isDigit n.natAbs
      rw [hcons]
      exact List.mem_cons_self c cs
    have hcne : c ≠ '-' := by
      intro hEq
      rw [hEq] at hcdigit
      exact absurd hcdigit (by decide)
    have hstep : parseInt ⟨natToChars n.natAbs⟩
        = (parseNat (c :: cs)).map (fun (m : Nat) => (m : Int)) := by
      unfold parseInt
      rw [show (⟨natToChars n.natAbs⟩ : String).data = c :: cs from hcons]
      exact if_neg hcne
    rw [hstep, ← hcons, parseNat_natToChars]
    simp only [Option.map_some']
    congr 1
    omega

theorem mapSet_of_not_mem (acc : List (String × Value)) (k : String) (v : Value)
    (h : ∀ q ∈ acc, q.1 ≠ k) : mapSet acc k v = acc ++ [(k, v)] := by
  unfold mapSet
  have hany : acc.any (fun p => p.1 == k) = false := by
    rw [List.any_eq_false]
    intro p hp
    simpa using h p hp
  simp [hany]

theorem foldl_mapSet_append (m : List (String × Value)) :
    ∀ acc : List (String × Value),
      (∀ p ∈ m, ∀ q ∈ acc, p.1 ≠ q.1) → (m.map Prod.fst).Nodup →
      m.foldl (fun a p => mapSet a p.1 p.2) acc = acc ++ m := by
  induction m with
  | nil =>
    intro acc _ _
    simp
  | cons hd rest ih =>
    intro acc hdisj hnodup
    simp only [List.foldl_cons]
    have h1 : mapSet acc hd.1 hd.2 = acc ++ [(hd.1, hd.2)] := by
      apply mapSet_of_not_mem
      intro q hq
      intro hEq
      exact (hdisj hd (List.mem_cons_self hd rest) q hq) hEq.symm
    rw [h1]
    have hnodup2 : (rest.map Prod.fst).Nodup := by
      rw [List.map_cons, List.nodup_cons] at hnodup
      exact hnodup.2
    have hk : hd.1 ∉ rest.map Prod.fst := by
      rw [List.map_cons, List.nodup_cons] at hnodup
      exact hnodup.1
    have hdisj2 : ∀ p ∈ rest, ∀ q ∈ acc ++ [(hd.1, hd.2)], p.1 ≠ q.1 := by
      intro p hp q hq
      rcases List.mem_append.mp hq with hq1 | hq1
      · exact hdisj p (List.mem_cons_of_mem hd hp) q hq1
      · simp only [List.mem_singleton] at hq1
        subst hq1
        intro hEq
        exact hk (hEq ▸ List.mem_map_of_mem Prod.fst hp)
    rw [ih (acc ++ [(hd.1, hd.2)]) hdisj2 hnodup2]
    simp

theorem copyMap_eq_self (m : List (String × Value))
    (h : (m.map Prod.fst).Nodup) : copyMap m = m := by
  unfold copyMap
  have := foldl_mapSet_append m [] (by simp) h
  simpa using this

theorem firstUnknownKey_eq_none (schema : List (String × CustomField))
    (inMap : List (String × Value))
    (h : ∀ p ∈ inMap, keyInSchema schema p.1 = true) :
    firstUnknownKey schema inMap = none := by
  unfold firstUnknownKey
  rw [List.find?_eq_none.mpr]
  · rfl
  · intro p hp
    simp [h p hp]

/-- Claim C1: for every schema and caller update map, if some key of the map
is absent from the schema then UpdateVLANCustomFields returns an error naming
an absent key of the map and issues zero mutating requests; and a mutating
PATCH is issued only when every key of the map has been found in the
schema. -/
theorem UpdateVLANCustomFields_validates_before_patch
    (schema : List (String × CustomField)) (patch : Except String String)
    (id : Int) (name : String) (inMap : List (String × Value)) :
    ((∃ p ∈ inMap, keyInSchema schema p.1 = false) →
      (UpdateVLANCustomFields (.ok schema) patch id name inMap).1 = [] ∧
      ∃ k, (UpdateVLANCustomFields (.ok schema) patch id name inMap).2.2
            = some (unknownFieldMsg k) ∧ (∃ p ∈ inMap, p.1 = k) ∧
          keyInSchema schema k = false) ∧
    ((UpdateVLANCustomFields (.ok schema) patch id name inMap).1 ≠ [] →
      ∀ p ∈ inMap, keyInSchema schema p.1 = true) := by
  constructor
  · intro h
    obtain ⟨p0, hp0, hk0⟩ := h
    have hfind : (inMap.find? (fun p => !(keyInSchema schema p.1))).isSome := by
      rw [List.find?_isSome]
      exact ⟨p0, hp0, by simp [hk0]⟩
    obtain ⟨q, hq⟩ := Option.isSome_iff_exists.mp hfind
    have hqmem : q ∈ inMap := List.mem_of_find?_eq_some hq
    have hqbad : keyInSchema schema q.1 = false := by
      have := List.find?_some hq
      simpa using this
    have hF : firstUnknownKey schema inMap = some q.1 := by
      unfold firstUnknownKey
      rw [hq]
      rfl
    refine ⟨?_, q.1, ?_, ⟨q, hqmem, rfl⟩, hqbad⟩
    · simp [UpdateVLANCustomFields, hF]
    · simp [UpdateVLANCustomFields, hF]
  · intro hne
    by_contra hnot
    push_neg at hnot
    obtain ⟨p0, hp0, hk0⟩ := hnot
    have hk2 : keyInSchema schema p0.1 = false := by
      cases hEq : keyInSchema schema p0.1
      · rfl
      · exact absurd hEq hk0
    have hfind : (inMap.find? (fun p => !(keyInSchema schema p.1))).isSome := by
      rw [List.find?_isSome]
      exact ⟨p0, hp0, by simp [hk2]⟩
    obtain ⟨q, hq⟩ := Option.isSome_iff_exists.mp hfind
    have hF : firstUnknownKey schema inMap = some q.1 := by
      unfold firstUnknownKey
      rw [hq]
      rfl
    apply hne
    simp [UpdateVLANCustomFields, hF]

/-- Witness for claim C1 at a concrete schema and update map: the unknown key
branch at an update map with a key outside the schema, and the all-keys-known
conclusion of the second part at a valid update map. -/
theorem UpdateVLANCustomFields_validates_before_patch_witness :
    ((UpdateVLANCustomFields (.ok [("asset_tag", ⟨"text"⟩), ("notes", ⟨"text"⟩)])
        (.ok "ok") 1 "v" [("unknown_key", .vStr "x")]).1 = [] ∧
      ∃ k, (UpdateVLANCustomFields
            (.ok [("asset_tag", ⟨"text"⟩), ("notes", ⟨"text"⟩)])
            (.ok "ok") 1 "v" [("unknown_key", .vStr "x")]).2.2
          = some (unknownFieldMsg k) ∧
        (∃ p ∈ [("unknown_key", Value.vStr "x")], p.1 = k) ∧
        keyInSchema [("asset_tag", ⟨"text"⟩), ("notes", ⟨"text"⟩)] k = false) ∧
    (∀ p ∈ [("asset_tag", Value.vStr "A123")],
      keyInSchema [("asset_tag", (⟨"text"⟩ : CustomField)), ("notes", ⟨"text"⟩)]
        p.1 = true) :=
  ⟨(UpdateVLANCustomFields_validates_before_patch
      [("asset_tag", ⟨"text"⟩), ("notes", ⟨"text"⟩)]
      (.ok "ok") 1 "v" [("unknown_key", .vStr "x")]).1 (by decide),
   (UpdateVLANCustomFields_validates_before_patch
      [("asset_tag", ⟨"text"⟩), ("notes", ⟨"text"⟩)]
      (.ok "ok") 1 "v" [("asset_tag", .vStr "A123")]).2 (by decide)⟩

/-- Claim C6: with every update-map key present in the schema,
UpdateVLANCustomFields issues exactly one PATCH to the vlans path whose body
is exactly the update map extended with id bound to the id argument and name
bound to the name argument. -/
theorem UpdateVLANCustomFields_patch_payload
    (schema : List (String × CustomField)) (patch : Except String String)
    (id : Int) (name : String) (inMap : List (String × Value))
    (hnodup : (inMap.map Prod.fst).Nodup)
    (hall : ∀ p ∈ inMap, keyInSchema schema p.1 = true) :
    (UpdateVLANCustomFields (.ok schema) patch id name inMap).1 =
      [⟨"PATCH", "/vlans/",
        mapSet (mapSet inMap "id" (.vInt id)) "name" (.vStr name)⟩] := by
  have hF := firstUnknownKey_eq_none schema inMap hall
  have hcopy := copyMap_eq_self inMap hnodup
  cases patch with
  | ok msg => simp [UpdateVLANCustomFields, hF, hcopy]
  | error e => simp [UpdateVLANCustomFields, hF, hcopy]

/-- Witness for claim C6 at a concrete id, name, schema and update map. -/
theorem UpdateVLANCustomFields_patch_payload_witness :
    ([("asset_tag", Value.vStr "A123")].map Prod.fst).Nodup ∧
    (UpdateVLANCustomFields (.ok [("asset_tag", ⟨"text"⟩), ("notes", ⟨"text"⟩)])
        (.ok "ok") 3 "vlan3" [("asset_tag", .vStr "A123")]).1 =
      [⟨"PATCH", "/vlans/",
        mapSet (mapSet [("asset_tag", .vStr "A123")] "id" (.vInt 3))
          "name" (.vStr "vlan3")⟩] :=
  ⟨by decide,
   UpdateVLANCustomFields_patch_payload
     [("asset_tag", ⟨"text"⟩), ("notes", ⟨"text"⟩)] (.ok "ok") 3 "vlan3"
     [("asset_tag", .vStr "A123")] (by decide) (by decide)⟩

/-- Claim C2: for each of the five resource kinds the FromDTO and ToDTO maps
invert each other field for field, so the DTO/domain pair is a bijection over
the declared field set. -/
theorem FromDTO_ToDTO_bijection :
    (∀ s : Section, Section.FromDTO (Section.ToDTO s) = s) ∧
    (∀ d : SectionDTO, Section.ToDTO (Section.FromDTO d) = d) ∧
    (∀ a : Address, Address.FromDTO (Address.ToDTO a) = a) ∧
    (∀ d : AddressDTO, Address.ToDTO (Address.FromDTO d) = d) ∧
    (∀ s : Subnet, Subnet.FromDTO (Subnet.ToDTO s) = s) ∧
    (∀ d : SubnetDTO, Subnet.ToDTO (Subnet.FromDTO d) = d) ∧
    (∀ v : VLAN, VLAN.FromDTO (VLAN.ToDTO v) = v) ∧
    (∀ d : VLANDTO, VLAN.ToDTO (VLAN.FromDTO d) = d) ∧
    (∀ l : L2Domain, L2Domain.FromDTO (L2Domain.ToDTO l) = l) ∧
    (∀ d : L2DomainDTO, L2Domain.ToDTO (L2Domain.FromDTO d) = d) :=
  ⟨fun _ => rfl, fun _ => rfl, fun _ => rfl, fun _ => rfl, fun _ => rfl,
   fun _ => rfl, fun _ => rfl, fun _ => rfl, fun _ => rfl, fun _ => rfl⟩

/-- Counterexample to claim C3: the Mask field of the subnets wire record is
a Normalized Integer but does not appear as a plain integer in the Subnet
domain record — the domain record keeps the JSONIntString wrapper there. -/
theorem subnet_mask_not_unwrapped_cex :
    unwrapsIntFieldsExcept [] subnetWireFields subnetDomainFields = false ∧
    ("Mask", FieldTy.tJSONIntString) ∈ subnetWireFields ∧
    ("Mask", FieldTy.tInt) ∉ subnetDomainFields ∧
    ("Mask", FieldTy.tJSONIntString) ∈ subnetDomainFields := by decide

/-- Claim C3 amended: every Normalized Integer wire field appears as a plain
integer in its domain record except the subnets Mask field, which keeps the
wrapper type and is copied still wrapped by Subnet.FromDTO; the other four
resource kinds unwrap every such field. -/
theorem int_fields_unwrapped_except_mask :
    (∀ t ∈ resourceFieldTables,
      unwrapsIntFieldsExcept ["Mask"] t.2.1 t.2.2 = true ∧
      domainDropsWrapperExcept ["Mask"] t.2.2 = true) ∧
    (∀ t ∈ resourceFieldTables, t.1 ≠ "subnets" →
      unwrapsIntFieldsExcept [] t.2.1 t.2.2 = true ∧
      domainDropsWrapperExcept [] t.2.2 = true) ∧
    (∀ dto : SubnetDTO, (Subnet.FromDTO dto).Mask = dto.Mask) :=
  ⟨by decide, by decide, fun _ => rfl⟩

/-- Witness for the amended claim C3 at the sections and vlans tables and the
zero subnet DTO. -/
theorem int_fields_unwrapped_except_mask_witness :
    (unwrapsIntFieldsExcept ["Mask"] sectionWireFields sectionDomainFields = true ∧
     domainDropsWrapperExcept ["Mask"] sectionDomainFields = true) ∧
    (unwrapsIntFieldsExcept [] vlanWireFields vlanDomainFields = true ∧
     domainDropsWrapperExcept [] vlanDomainFields = true) ∧
    (Subnet.FromDTO SubnetDTO.zero).Mask = SubnetDTO.zero.Mask :=
  ⟨int_fields_unwrapped_except_mask.1
     ("sections", sectionWireFields, sectionDomainFields) (by decide),
   int_fields_unwrapped_except_mask.2.1
     ("vlans", vlanWireFields, vlanDomainFields) (by decide) (by decide),
   int_fields_unwrapped_except_mask.2.2 SubnetDTO.zero⟩

/-- Counterexample to claim C4: GetSectionByName is a get-by-name operation
returning a single record, so not every search operation preserves the
sequence-returning signature. -/
theorem search_ops_not_all_seq_cex :
    SearchOp.mk "GetSectionByName" false ∈ searchOps ∧
    ¬ (∀ op ∈ searchOps, op.returnsSeq = true) := by decide

/-- Claim C4 amended: every get-by-name / get-by-search-key operation returns
a sequence of domain records, except GetSectionByName and
GetAddressesByIpInSubnet, which return a single record. -/
theorem search_ops_return_seq_except :
    ∀ op ∈ searchOps, op.name ≠ "GetSectionByName" →
      op.name ≠ "GetAddressesByIpInSubnet" → op.returnsSeq = true := by decide

/-- Witness for the amended claim C4 at GetL2DomainByName. -/
theorem search_ops_return_seq_except_witness :
    (SearchOp.mk "GetL2DomainByName" true).returnsSeq = true :=
  search_ops_return_seq_except ⟨"GetL2DomainByName", true⟩ (by decide)
    (by decide) (by decide)

/-- Counterexample to claim C5: on an empty server array, ListSections and
GetAddressesInSubnet finish with no error but leave the output as the nil
slice — the null slice value, not a non-nil empty slice. -/
theorem list_empty_returns_nil_slice_cex :
    ListSections (.ok (some [])) = (goNil, none) ∧
    GetAddressesInSubnet 5 (.ok (some [])) = (goNil, none) ∧
    (goNil : GoSlice Section) = none ∧
    (some [] : GoSlice Section) ≠ goNil :=
  ⟨rfl, rfl, rfl, fun h => Option.noConfusion h⟩

/-- Claim C5 amended: every list operation given an empty server array
returns a length-zero sequence and no error; the append-built operations
(ListSections, GetAddressesInSubnet) return the nil slice of length zero,
while ListL2Domains returns the non-nil empty slice its decode produces. -/
theorem list_empty_returns_len_zero :
    goLen (ListSections (.ok (some []))).1 = 0 ∧
    (ListSections (.ok (some []))).2 = none ∧
    (∀ id : Int, goLen (GetAddressesInSubnet id (.ok (some []))).1 = 0 ∧
      (GetAddressesInSubnet id (.ok (some []))).2 = none) ∧
    ListL2Domains (.ok (some [])) = (some [], none) :=
  ⟨rfl, rfl, fun _ => ⟨rfl, rfl⟩, rfl⟩

/-- Counterexample to claim C7: ListL2Domains decodes the response directly
into the domain slice, bypassing the DTO-to-domain conversion step. -/
theorem record_ops_via_dto_cex :
    RecordOp.mk "ListL2Domains" false ∈ recordReturningOps ∧
    ¬ (∀ op ∈ recordReturningOps, op.decodesViaDTO = true) := by decide

/-- Claim C7 amended: every record-returning operation except ListL2Domains
decodes the response into wire records first and converts via FromDTO. -/
theorem record_ops_via_dto_except :
    ∀ op ∈ recordReturningOps, op.name ≠ "ListL2Domains" →
      op.decodesViaDTO = true := by decide

/-- Witness for the amended claim C7 at ListSections. -/
theorem record_ops_via_dto_except_witness :
    (RecordOp.mk "ListSections" true).decodesViaDTO = true :=
  record_ops_via_dto_except ⟨"ListSections", true⟩ (by decide) (by decide)

/-- Claim C8: DeleteSection issues exactly one request — a DELETE to the
section's own path — and no calls enumerating or deleting children, whatever
the dispatcher outcome. -/
theorem DeleteSection_single_delete_call (id : Int) (resp : Except String Unit) :
    (DeleteSection id resp).1 =
      [⟨"DELETE", "/sections/" ++ toString id ++ "/", []⟩] ∧
    (DeleteSection id resp).1.length = 1 :=
  ⟨rfl, rfl⟩

/-- Claim C9: decoding the encoding of any nonnegative integer under the
Normalized Integer type yields the integer again, and decoding a quoted
numeric string gives the same result as decoding the native JSON number. -/
theorem decode_encode_JSONIntString (n : Int) (hn : 0 ≤ n) :
    (∀ optional : Bool,
      decodeJSONIntString (encodeJSONIntString ⟨n⟩ optional) = .ok ⟨n⟩) ∧
    decodeJSONIntString (.str (intToString n)) = decodeJSONIntString (.num n) := by
  have hne : intToString n ≠ "" := by
    unfold intToString
    by_cases hneg : n < 0
    · rw [if_pos hneg]
      intro h
      have hdata : ('-' :: natToChars n.natAbs) = [] := congrArg String.data h
      exact absurd hdata (by simp)
    · rw [if_neg hneg]
      intro h
      have hdata : natToChars n.natAbs = [] := congrArg String.data h
      exact natToChars_ne_nil _ hdata
  have hstr : decodeJSONIntString (.str (intToString n)) = .ok ⟨n⟩ := by
    show (if intToString n = "" then Except.ok (⟨0⟩ : JSONIntString)
          else match parseInt (intToString n) with
               | some m => Except.ok (⟨m⟩ : JSONIntString)
               | none => Except.error "MalformedScalar")
        = Except.ok (⟨n⟩ : JSONIntString)
    rw [if_neg hne, parseInt_intToString]
  constructor
  · intro opt
    unfold encodeJSONIntString
    by_cases hz : opt ∧ n = 0
    · obtain ⟨h1, h2⟩ := hz
      subst h2
      rw [if_pos ⟨h1, rfl⟩]
      rfl
    · rw [if_neg (fun hc => hz ⟨hc.1, hc.2⟩)]
      exact hstr
  · rw [hstr]
    rfl

/-- Witness for claim C9 at 42. -/
theorem decode_encode_JSONIntString_witness :
    (0 : Int) ≤ 42 ∧
    decodeJSONIntString (encodeJSONIntString ⟨42⟩ true) = .ok ⟨42⟩ ∧
    decodeJSONIntString (.str (intToString 42)) = decodeJSONIntString (.num 42) :=
  ⟨by decide, (decode_encode_JSONIntString 42 (by decide)).1 true,
   (decode_encode_JSONIntString 42 (by decide)).2⟩

/-- Claim C10: when the dispatcher fails, each get-by-identifier operation
still converts the zero-valued wire record and returns the zero-valued domain
record (integer fields 0, strings empty, maps nil) together with the error. -/
theorem get_by_id_error_returns_zero_record (id : Int) (e : String) :
    GetSectionByID id (.error e) = (Section.FromDTO SectionDTO.zero, some e) ∧
    GetVLANByID id (.error e) = (VLAN.FromDTO VLANDTO.zero, some e) ∧
    GetSubnetByID id (.error e) = (Subnet.FromDTO SubnetDTO.zero, some e) ∧
    Section.FromDTO SectionDTO.zero =
      ⟨0, "", "", 0, "", ⟨false⟩, "", 0, "", ⟨false⟩, ⟨false⟩, ⟨false⟩, 0⟩ ∧
    VLAN.FromDTO VLANDTO.zero = ⟨0, 0, "", 0, "", "", none⟩ ∧
    Subnet.FromDTO SubnetDTO.zero =
      ⟨0, "", ⟨0⟩, "", 0, 0, 0, 0, 0, 0, none, ⟨false⟩, "", ⟨false⟩, ⟨false⟩,
       ⟨false⟩, 0, ⟨false⟩, ⟨false⟩, ⟨false⟩, ⟨false⟩, ⟨false⟩, 0, 0, "", none,
       "", none, ⟨false⟩⟩ :=
  ⟨rfl, rfl, rfl, rfl, rfl, rfl⟩

end PhpipamSdk
